import Mathlib

/-!
Shallow embedding of the codis proxy routing core (pkg/proxy/router.go).

The router file itself is translated directly.  The collaborators it calls
into — the slot descriptor type (models.Slot), the per-slot state machine
(snapshot / forward / the gate), the reference-counted shared backend
connection pool, and the request hashing — live outside the translated file,
so they are modelled from the specification; each such definition carries a
doc comment starting with "Modelled from the spec:".

Shared backend connections are identified by their address.  The pools track
a per-address reference count plus retain / release event counters, so that
statements about connection churn ("no connection retained or released") are
statements about the state.  The router-wide mutex and the in-flight drain of
blockAndWait are concurrency artefacts with no effect on the sequential state
transitions modelled here; the gate's hold flag, which does affect dispatch,
is modelled.
-/

set_option maxRecDepth 10000

namespace Codis

/-- Modelled from the spec: models.MaxSlotNum, the compile-time number of
slots of the fixed shard map (the value used by the released system). -/
def MaxSlotNum : Nat := 1024

/-- Router configuration (only the fields the translated code touches). -/
structure Config where
  BackendPrimaryParallel : Nat
  BackendReplicaParallel : Nat
deriving DecidableEq

/-- Modelled from the spec: the slot descriptor (models.Slot) supplied by the
cluster metadata layer: id, a locked flag, backend address and owning group
id, optional migration source address and group id, and replica-group address
lists.  Field defaults mirror Go zero values, so a literal with only some
fields set corresponds to a Go composite literal. -/
structure MSlot where
  Id : Int := 0
  Locked : Bool := false
  BackendAddr : String := ""
  BackendAddrGroupId : Int := 0
  MigrateFrom : String := ""
  MigrateFromGroupId : Int := 0
  ReplicaGroups : List (List String) := []
deriving DecidableEq

/-- Router error kinds.  ClosedRouter and InvalidSlotId are declared in
router.go; SlotIsNotReady and CrossSlot are the error kinds the spec assigns
to the forwarding path, which lives outside the translated file. -/
inductive RouterError where
  | ClosedRouter
  | InvalidSlotId
  | SlotIsNotReady
  | CrossSlot
deriving DecidableEq

def ErrClosedRouter : RouterError := .ClosedRouter

def ErrInvalidSlotId : RouterError := .InvalidSlotId

/-- Modelled from the spec: the SlotNotReady error kind, returned when a slot
is gated or has no backend connection assigned. -/
def ErrSlotIsNotReady : RouterError := .SlotIsNotReady

/-- Modelled from the spec: the CrossShardRequest error kind, returned for a
multi-key request whose keys hash to different slots. -/
def ErrCrossSlot : RouterError := .CrossSlot

/-- Modelled from the spec: the reference-counted shared backend connection
pool.  A connection is identified by its address; refcnt tracks the reference
count per address, and retains / releases count the retain and release events
performed, so connection churn is observable in the state. -/
structure sharedBackendConnPool where
  refcnt : String → Nat
  retains : Nat
  releases : Nat

def newSharedBackendConnPool (parallel : Nat) : sharedBackendConnPool :=
  { refcnt := fun _ => 0, retains := 0, releases := 0 }

/-- Modelled from the spec: Retain(addr, config) returns the shared
connection for the address (identified here by the address itself),
incrementing its reference count and the retain event counter. -/
def sharedBackendConnPool.Retain (p : sharedBackendConnPool) (addr : String)
    (config : Config) : sharedBackendConnPool × String :=
  ({ refcnt := fun a => if a = addr then p.refcnt a + 1 else p.refcnt a,
     retains := p.retains + 1, releases := p.releases }, addr)

/-- Modelled from the spec: releasing a possibly nil shared connection.
Release on a nil connection is a no-op; otherwise the reference count of the
connection's address is decremented and the release event counter bumped. -/
def sharedBackendConnPool.ReleaseConn (p : sharedBackendConnPool)
    (bc : Option String) : sharedBackendConnPool :=
  match bc with
  | none => p
  | some addr =>
    { refcnt := fun a => if a = addr then p.refcnt a - 1 else p.refcnt a,
      retains := p.retains, releases := p.releases + 1 }

/-- One role reference of a slot (backend or migrate): the shared connection
(nil when absent) and the owning group id. -/
structure SlotRef where
  bc : Option String
  id : Int
deriving DecidableEq

/-- The slot gate.  Only the hold flag matters for the sequential state; the
in-flight counter of blockAndWait is a concurrency artefact. -/
structure SlotLock where
  hold : Bool
deriving DecidableEq

/-- Modelled from the spec: the per-shard slot state machine: immutable id,
backend and migrate references, replica connection groups, the switched flag
and the gate. -/
structure Slot where
  id : Int
  backend : SlotRef
  migrate : SlotRef
  replicaGroups : List (List String)
  switched : Bool
  lock : SlotLock
deriving DecidableEq

/-- Modelled from the spec: a request as seen by the routing core: the set of
routing keys, the operation name, and a selection seed. -/
structure Request where
  Multi : List String
  OpStr : String
  Seed : Nat
deriving DecidableEq

/-- Modelled from the spec: a deterministic hash of a routing key.  The
concrete hash function lives outside the translated file; any fixed
deterministic function represents it, here a polynomial string hash over the
key's characters. -/
def Hash (key : String) : Nat :=
  key.data.foldl (fun h c => h * 31 + c.toNat) 5381

/-- Modelled from the spec: getHashKey resolves a request's key set and
operation name to the single hash key of the request.  A request with no
routing keys resolves to its operation name; a multi-key request whose keys
hash to different slots is a cross-shard error. -/
def getHashKey (multi : List String) (opstr : String) : Except RouterError String :=
  match multi with
  | [] => .ok opstr
  | k :: ks =>
    if ks.all fun k2 => Hash k2 % MaxSlotNum == Hash k % MaxSlotNum then .ok k
    else .error ErrCrossSlot

/-- The destination a successfully dispatched request was handed to: the slot
it was forwarded through, the backend address that receives it, and whether
the migration-aware path was taken. -/
structure ForwardTarget where
  slotId : Int
  backendAddr : String
  viaMigrate : Bool
deriving DecidableEq

/-- Modelled from the spec: Slot.snapshot produces the external descriptor
view of the slot: current backend / migrate addresses and group ids, the
locked flag, and (when list is true) the replica-group address lists. -/
def Slot.snapshot (s : Slot) (list : Bool) : MSlot :=
  { Id := s.id,
    Locked := s.lock.hold,
    BackendAddr := s.backend.bc.getD "",
    BackendAddrGroupId := s.backend.id,
    MigrateFrom := s.migrate.bc.getD "",
    MigrateFromGroupId := s.migrate.id,
    ReplicaGroups := if list then s.replicaGroups else [] }

/-- Modelled from the spec: Slot.forward, the admission path.  It fails with
SlotNotReady when the gate is held or no backend connection is assigned;
otherwise the request is handed to the backend connection, via the
migration-aware path when a hash key is supplied and the slot is migrating.
An error return means the request was not pushed onto any connection. -/
def Slot.forward (s : Slot) (r : Request) (hkey : Option String) :
    Except RouterError ForwardTarget :=
  if s.lock.hold then .error ErrSlotIsNotReady
  else
    match s.backend.bc with
    | none => .error ErrSlotIsNotReady
    | some addr =>
      match hkey, s.migrate.bc with
      | some _, some _ => .ok { slotId := s.id, backendAddr := addr, viaMigrate := true }
      | _, _ => .ok { slotId := s.id, backendAddr := addr, viaMigrate := false }

/-- The two connection pools of the router (primary role, replica role). -/
structure RouterPool where
  primary : sharedBackendConnPool
  replica : sharedBackendConnPool

/-- The router: the two pools, the fixed slot table (a total function on Int;
the code only ever indexes it inside the valid range), the configuration and
the lifecycle flags. -/
structure Router where
  pool : RouterPool
  slots : Int → Slot
  config : Config
  online : Bool
  closed : Bool

def NewRouter (config : Config) : Router :=
  { pool :=
      { primary := newSharedBackendConnPool config.BackendPrimaryParallel,
        replica := newSharedBackendConnPool config.BackendReplicaParallel },
    slots := fun i =>
      { id := i, backend := { bc := none, id := 0 }, migrate := { bc := none, id := 0 },
        replicaGroups := [], switched := false, lock := { hold := false } },
    config := config, online := false, closed := false }

def Router.Start (s : Router) : Router :=
  if s.closed then s else { s with online := true }

def Router.isOnline (s : Router) : Bool :=
  s.online && !s.closed

/-- The slot-table part of Router.fillSlot: blockAndWait, clearing of the
backend / migrate / replica references and the switched flag, re-population
from the descriptor (retained connections are identified by their address;
empty replica groups are skipped), and unblock unless the descriptor requests
the slot stay locked. -/
def Slot.applyFill (slot : Slot) (m : MSlot) (switched : Bool) : Slot :=
  let s1 : Slot :=
    { slot with
      lock := { hold := true },
      backend := { bc := none, id := 0 },
      migrate := { bc := none, id := 0 },
      replicaGroups := [],
      switched := switched }
  let s2 :=
    if m.BackendAddr ≠ "" then
      { s1 with backend := { bc := some m.BackendAddr, id := m.BackendAddrGroupId } }
    else s1
  let s3 :=
    if m.MigrateFrom ≠ "" then
      { s2 with migrate := { bc := some m.MigrateFrom, id := m.MigrateFromGroupId } }
    else s2
  let s4 :=
    { s3 with
      replicaGroups :=
        m.ReplicaGroups.foldl (fun acc g => if g.isEmpty then acc else acc ++ [g]) [] }
  if !m.Locked then { s4 with lock := { hold := false } } else s4

/-- The pool part of Router.fillSlot: the slot's previous backend and migrate
connections are released to the primary pool and its replica connections to
the replica pool; then the descriptor's backend / migrate addresses are
retained from the primary pool and every replica address from the replica
pool. -/
def Router.fillSlotPools (s : Router) (m : MSlot) : RouterPool :=
  let slot := s.slots m.Id
  let pp := (s.pool.primary.ReleaseConn slot.backend.bc).ReleaseConn slot.migrate.bc
  let pr :=
    slot.replicaGroups.foldl
      (fun q g => g.foldl (fun q2 a => q2.ReleaseConn (some a)) q) s.pool.replica
  let pp := if m.BackendAddr ≠ "" then (pp.Retain m.BackendAddr s.config).1 else pp
  let pp := if m.MigrateFrom ≠ "" then (pp.Retain m.MigrateFrom s.config).1 else pp
  let pr :=
    m.ReplicaGroups.foldl
      (fun q g => g.foldl (fun q2 a => (q2.Retain a s.config).1) q) pr
  { primary := pp, replica := pr }

/-- Router.fillSlot: reconfigures the slot named by the descriptor.  The
state change factors into the slot-table part (Slot.applyFill) and the pool
part (Router.fillSlotPools); both follow the source statement for statement. -/
def Router.fillSlot (s : Router) (m : MSlot) (switched : Bool) : Router :=
  { s with
    pool := s.fillSlotPools m,
    slots := fun j => if j = m.Id then (s.slots m.Id).applyFill m switched else s.slots j }

def Router.Close (s : Router) : Router :=
  if s.closed then s
  else
    (List.range MaxSlotNum).foldl
      (fun (st : Router) (i : Nat) => st.fillSlot { Id := (i : Int) } false)
      { s with closed := true }

def Router.GetSlot (s : Router) (id : Int) : Option MSlot :=
  if id < 0 ∨ (MaxSlotNum : Int) ≤ id then none
  else some ((s.slots id).snapshot true)

def Router.HasSwitched (s : Router) : Bool :=
  (List.range MaxSlotNum).any fun (i : Nat) => (s.slots (i : Int)).switched

def Router.FillSlot (s : Router) (m : MSlot) : Option RouterError × Router :=
  if s.closed then (some ErrClosedRouter, s)
  else if m.Id < 0 ∨ (MaxSlotNum : Int) ≤ m.Id then (some ErrInvalidSlotId, s)
  else (none, s.fillSlot m false)

def Router.dispatch (s : Router) (r : Request) : Except RouterError ForwardTarget :=
  match getHashKey r.Multi r.OpStr with
  | .error e => .error e
  | .ok hkey => (s.slots ((Hash hkey % MaxSlotNum : Nat) : Int)).forward r (some hkey)

def Router.trySwitchMaster (s : Router) (id : Int) (masters : Int → String) : Router :=
  let m0 := (s.slots id).snapshot false
  let p1 : MSlot × Bool :=
    if masters m0.BackendAddrGroupId ≠ "" then
      if masters m0.BackendAddrGroupId ≠ m0.BackendAddr then
        ({ m0 with BackendAddr := masters m0.BackendAddrGroupId }, true)
      else (m0, false)
    else (m0, false)
  let p2 : MSlot × Bool :=
    if masters p1.1.MigrateFromGroupId ≠ "" then
      if masters p1.1.MigrateFromGroupId ≠ p1.1.MigrateFrom then
        ({ p1.1 with MigrateFrom := masters p1.1.MigrateFromGroupId }, true)
      else p1
    else p1
  if p2.2 then s.fillSlot p2.1 true else s

def Router.SwitchMasters (s : Router) (masters : Int → String) :
    Option RouterError × Router :=
  if s.closed then (some ErrClosedRouter, s)
  else
    (none,
      (List.range MaxSlotNum).foldl
        (fun (st : Router) (i : Nat) => st.trySwitchMaster (i : Int) masters) s)

/-- The structural operations of the router lifecycle; dispatch and the read
accessors do not change the state. -/
inductive Op where
  | start
  | close
  | fill (m : MSlot)
  | switch (masters : Int → String)

def applyOp (r : Router) (op : Op) : Router :=
  match op with
  | .start => r.Start
  | .close => r.Close
  | .fill m => (r.FillSlot m).2
  | .switch masters => (r.SwitchMasters masters).2

def applyOps (r : Router) (ops : List Op) : Router :=
  ops.foldl applyOp r

/-- A descriptor is well formed when a migration source is only named
together with a backend address (the spec's "migration target must exist"). -/
def wfDesc (m : MSlot) : Prop :=
  m.MigrateFrom ≠ "" → m.BackendAddr ≠ ""

/-- Structural well-formedness of a slot as established by every reachable
state: a missing connection has group id 0 (Go zero values), a present
connection has a nonempty address (fillSlot only retains nonempty addresses),
and a migration source implies a backend. -/
def SlotInv (s : Slot) : Prop :=
  (s.backend.bc = none → s.backend.id = 0) ∧
  (∀ a, s.backend.bc = some a → a ≠ "") ∧
  (s.migrate.bc = none → s.migrate.id = 0) ∧
  (∀ a, s.migrate.bc = some a → a ≠ "") ∧
  (s.migrate.bc ≠ none → s.backend.bc ≠ none)

def RouterInv (r : Router) : Prop :=
  ∀ j : Int, SlotInv (r.slots j)

/-- The condition under which trySwitchMaster refills a slot whose snapshot
is m: the mapping names a master for the backend or migrate group that
differs from the recorded address. -/
def switchNeeded (m : MSlot) (f : Int → String) : Prop :=
  (f m.BackendAddrGroupId ≠ "" ∧ f m.BackendAddrGroupId ≠ m.BackendAddr) ∨
  (f m.MigrateFromGroupId ≠ "" ∧ f m.MigrateFromGroupId ≠ m.MigrateFrom)

/-- The descriptor trySwitchMaster hands to fillSlot: the snapshot with the
backend / migrate addresses replaced by the mapping's masters where the
mapping names one. -/
def switchTarget (m : MSlot) (f : Int → String) : MSlot :=
  { m with
    BackendAddr := if f m.BackendAddrGroupId ≠ "" then f m.BackendAddrGroupId else m.BackendAddr,
    MigrateFrom := if f m.MigrateFromGroupId ≠ "" then f m.MigrateFromGroupId else m.MigrateFrom }

/-! ### Basic characterizations -/

lemma foldl_append_nonempty (l : List (List String)) (acc : List (List String)) :
    l.foldl (fun acc g => if g.isEmpty then acc else acc ++ [g]) acc =
      acc ++ l.filter (fun g => !g.isEmpty) := by
  induction l generalizing acc with
  | nil => simp
  | cons g t ih =>
    rw [List.foldl_cons, ih, List.filter_cons]
    cases hg : g.isEmpty <;> simp [hg]

lemma applyFill_eq (slot : Slot) (m : MSlot) (sw : Bool) :
    slot.applyFill m sw =
      { id := slot.id,
        backend :=
          if m.BackendAddr = "" then { bc := none, id := 0 }
          else { bc := some m.BackendAddr, id := m.BackendAddrGroupId },
        migrate :=
          if m.MigrateFrom = "" then { bc := none, id := 0 }
          else { bc := some m.MigrateFrom, id := m.MigrateFromGroupId },
        replicaGroups := m.ReplicaGroups.filter (fun g => !g.isEmpty),
        switched := sw,
        lock := { hold := m.Locked } } := by
  unfold Slot.applyFill
  rw [foldl_append_nonempty]
  by_cases hB : m.BackendAddr = "" <;> by_cases hM : m.MigrateFrom = "" <;>
    cases hL : m.Locked <;> simp [hB, hM, hL]

lemma snapshot_applyFill (slot : Slot) (m : MSlot) (sw : Bool) (list : Bool) :
    (slot.applyFill m sw).snapshot list =
      { Id := slot.id,
        Locked := m.Locked,
        BackendAddr := m.BackendAddr,
        BackendAddrGroupId := if m.BackendAddr = "" then 0 else m.BackendAddrGroupId,
        MigrateFrom := m.MigrateFrom,
        MigrateFromGroupId := if m.MigrateFrom = "" then 0 else m.MigrateFromGroupId,
        ReplicaGroups :=
          if list then m.ReplicaGroups.filter (fun g => !g.isEmpty) else [] } := by
  rw [applyFill_eq]
  unfold Slot.snapshot
  by_cases hB : m.BackendAddr = "" <;> by_cases hM : m.MigrateFrom = "" <;>
    simp [hB, hM]

lemma fillSlot_slots (s : Router) (m : MSlot) (sw : Bool) (j : Int) :
    (s.fillSlot m sw).slots j =
      if j = m.Id then (s.slots m.Id).applyFill m sw else s.slots j := rfl

lemma fillSlot_closed (s : Router) (m : MSlot) (sw : Bool) :
    (s.fillSlot m sw).closed = s.closed := rfl

lemma fillSlot_online (s : Router) (m : MSlot) (sw : Bool) :
    (s.fillSlot m sw).online = s.online := rfl

lemma fillSlot_config (s : Router) (m : MSlot) (sw : Bool) :
    (s.fillSlot m sw).config = s.config := rfl

/-! ### C8: gate state after fillSlot -/

/-- C8: after fillSlot completes for a descriptor m, the slot's gate is held
exactly when m.Locked is true: fillSlot blocks the slot first and unblocks at
the end iff the descriptor does not request a locked state. -/
theorem fillSlot_gate (s : Router) (m : MSlot) (sw : Bool) :
    ((s.fillSlot m sw).slots m.Id).lock.hold = m.Locked := by
  rw [fillSlot_slots, if_pos rfl, applyFill_eq]

/-! ### C10: GetSlot totality -/

/-- C10: GetSlot returns nil (none) for every id outside the valid slot
range, without error or panic — the router state is untouched since GetSlot
is a pure read — and a non-nil snapshot for every id inside the range. -/
theorem getSlot_range (r : Router) (id : Int) :
    ((id < 0 ∨ (MaxSlotNum : Int) ≤ id) → r.GetSlot id = none) ∧
    (0 ≤ id → id < (MaxSlotNum : Int) → (r.GetSlot id).isSome = true) := by
  constructor
  · intro h
    unfold Router.GetSlot
    rw [if_pos h]
  · intro h0 hN
    unfold Router.GetSlot
    rw [if_neg]
    · rfl
    · push_neg
      exact ⟨h0, hN⟩

theorem getSlot_range_witness :
    (((-1 : Int) < 0 ∨ (MaxSlotNum : Int) ≤ (-1 : Int)) →
        (NewRouter ⟨1, 1⟩).GetSlot (-1) = none) ∧
    ((NewRouter ⟨1, 1⟩).GetSlot (-1) = none) ∧
    (((NewRouter ⟨1, 1⟩).GetSlot 0).isSome = true) :=
  ⟨(getSlot_range (NewRouter ⟨1, 1⟩) (-1)).1,
   (getSlot_range (NewRouter ⟨1, 1⟩) (-1)).1 (Or.inl (by decide)),
   (getSlot_range (NewRouter ⟨1, 1⟩) 0).2 (by decide) (by decide)⟩

/-! ### C6: FillSlot failure cases -/

lemma FillSlot_of_closed (r : Router) (m : MSlot) (h : r.closed = true) :
    r.FillSlot m = (some ErrClosedRouter, r) := by
  unfold Router.FillSlot
  rw [if_pos h]

lemma FillSlot_of_invalid (r : Router) (m : MSlot) (h : r.closed = false)
    (hid : m.Id < 0 ∨ (MaxSlotNum : Int) ≤ m.Id) :
    r.FillSlot m = (some ErrInvalidSlotId, r) := by
  unfold Router.FillSlot
  rw [if_neg (by rw [h]; exact Bool.false_ne_true), if_pos hid]

lemma FillSlot_of_valid (r : Router) (m : MSlot) (h : r.closed = false)
    (h0 : 0 ≤ m.Id) (hN : m.Id < (MaxSlotNum : Int)) :
    r.FillSlot m = (none, r.fillSlot m false) := by
  unfold Router.FillSlot
  rw [if_neg (by rw [h]; exact Bool.false_ne_true),
    if_neg (by push_neg; exact ⟨h0, hN⟩)]

/-- C6: FillSlot returns ClosedRouter when the router is closed and — when
the router is open — InvalidSlotId when the descriptor's id is outside the
valid range; in both failure cases the returned router is exactly the prior
one: no slot changes and no connection is retained or released (the pools,
with their retain/release counters, are part of the unchanged state). -/
theorem fillSlot_failures (r : Router) (m : MSlot) :
    (r.closed = true → r.FillSlot m = (some ErrClosedRouter, r)) ∧
    (r.closed = false → (m.Id < 0 ∨ (MaxSlotNum : Int) ≤ m.Id) →
      r.FillSlot m = (some ErrInvalidSlotId, r)) :=
  ⟨FillSlot_of_closed r m, FillSlot_of_invalid r m⟩

theorem fillSlot_failures_witness :
    ({ NewRouter ⟨1, 1⟩ with closed := true }).FillSlot { Id := 3 } =
      (some ErrClosedRouter, { NewRouter ⟨1, 1⟩ with closed := true }) ∧
    (NewRouter ⟨1, 1⟩).FillSlot { Id := -2 } =
      (some ErrInvalidSlotId, NewRouter ⟨1, 1⟩) :=
  ⟨(fillSlot_failures { NewRouter ⟨1, 1⟩ with closed := true } { Id := 3 }).1 rfl,
   (fillSlot_failures (NewRouter ⟨1, 1⟩) { Id := -2 }).2 rfl (Or.inl (by decide))⟩

/-! ### C1: FillSlot followed by GetSlot -/

/-- C1 (amended): on an open router and a valid slot id, FillSlot succeeds
and GetSlot returns a snapshot whose backend and migrate addresses and locked
flag equal the descriptor's; the backend / migrate group ids equal the
descriptor's when the corresponding address is nonempty and are cleared to 0
otherwise; the replica-group address lists equal the descriptor's with empty
groups removed; and the slot's switched flag is false, the value FillSlot
applies (descriptors carry no switched field). -/
theorem fillSlot_getSlot (r : Router) (m : MSlot) (hc : r.closed = false)
    (hid : 0 ≤ m.Id ∧ m.Id < (MaxSlotNum : Int)) :
    (r.FillSlot m).1 = none ∧
    (r.FillSlot m).2.GetSlot m.Id =
      some
        { Id := (r.slots m.Id).id,
          Locked := m.Locked,
          BackendAddr := m.BackendAddr,
          BackendAddrGroupId := if m.BackendAddr = "" then 0 else m.BackendAddrGroupId,
          MigrateFrom := m.MigrateFrom,
          MigrateFromGroupId := if m.MigrateFrom = "" then 0 else m.MigrateFromGroupId,
          ReplicaGroups := m.ReplicaGroups.filter (fun g => !g.isEmpty) } ∧
    ((r.FillSlot m).2.slots m.Id).switched = false := by
  have h1 := FillSlot_of_valid r m hc hid.1 hid.2
  refine ⟨by rw [h1], ?_, ?_⟩
  · rw [h1]
    unfold Router.GetSlot
    rw [if_neg (by push_neg; exact hid), fillSlot_slots, if_pos rfl,
      snapshot_applyFill]
    simp
  · rw [h1, fillSlot_slots, if_pos rfl, applyFill_eq]

/-- Counterexample to C1 as stated: for the descriptor with empty backend and
migrate addresses but nonzero group ids 7 and 9 and replica groups [[]], the
snapshot after FillSlot has both group ids 0 and replica groups [], none of
which equal the descriptor's fields. -/
theorem fillSlot_getSlot_cex :
    ((NewRouter ⟨1, 1⟩).FillSlot
        { Id := 0, BackendAddrGroupId := 7, MigrateFromGroupId := 9,
          ReplicaGroups := [[]] }).2.GetSlot 0 =
      some { Id := 0, Locked := false, BackendAddr := "", BackendAddrGroupId := 0,
             MigrateFrom := "", MigrateFromGroupId := 0, ReplicaGroups := [] } ∧
    ((0 : Int) ≠ 7 ∧ (0 : Int) ≠ 9 ∧
      ([] : List (List String)) ≠ [[]]) := by
  exact ⟨by decide, by decide, by decide, by decide⟩

def c1m : MSlot :=
  { Id := 0, Locked := false, BackendAddr := "b", BackendAddrGroupId := 5,
    MigrateFrom := "f", MigrateFromGroupId := 6,
    ReplicaGroups := [["x"], [], ["y", "z"]] }

theorem fillSlot_getSlot_witness :
    (NewRouter ⟨1, 1⟩).closed = false ∧
    ((0 : Int) ≤ c1m.Id ∧ c1m.Id < (MaxSlotNum : Int)) ∧
    (((NewRouter ⟨1, 1⟩).FillSlot c1m).1 = none ∧
      ((NewRouter ⟨1, 1⟩).FillSlot c1m).2.GetSlot c1m.Id =
        some
          { Id := ((NewRouter ⟨1, 1⟩).slots c1m.Id).id,
            Locked := c1m.Locked,
            BackendAddr := c1m.BackendAddr,
            BackendAddrGroupId := if c1m.BackendAddr = "" then 0 else c1m.BackendAddrGroupId,
            MigrateFrom := c1m.MigrateFrom,
            MigrateFromGroupId := if c1m.MigrateFrom = "" then 0 else c1m.MigrateFromGroupId,
            ReplicaGroups := c1m.ReplicaGroups.filter (fun g => !g.isEmpty) } ∧
      (((NewRouter ⟨1, 1⟩).FillSlot c1m).2.slots c1m.Id).switched = false) :=
  ⟨rfl, ⟨by decide, by decide⟩,
    fillSlot_getSlot (NewRouter ⟨1, 1⟩) c1m rfl ⟨by decide, by decide⟩⟩

/-! ### Close: every slot is driven back to the empty state -/

/-- A slot in the empty, unblocked state that Close leaves behind. -/
def SlotReset (s : Slot) : Prop :=
  s.backend.bc = none ∧ s.migrate.bc = none ∧ s.replicaGroups = [] ∧
  s.lock.hold = false

lemma applyFill_reset (slot : Slot) (k : Int) :
    SlotReset (slot.applyFill { Id := k } false) := by
  rw [applyFill_eq]
  exact ⟨rfl, rfl, rfl, rfl⟩

lemma closeFold_preserves_reset (l : List Nat) (j : Int) :
    ∀ s : Router, SlotReset (s.slots j) →
      SlotReset
        ((l.foldl (fun (st : Router) (k : Nat) => st.fillSlot { Id := (k : Int) } false)
          s).slots j) := by
  induction l with
  | nil => exact fun s h => h
  | cons k t ih =>
    intro s h
    rw [List.foldl_cons]
    apply ih
    rw [fillSlot_slots]
    by_cases hk : j = (k : Int)
    · rw [if_pos hk]; exact applyFill_reset _ _
    · rw [if_neg hk]; exact h

lemma closeFold_reset (l : List Nat) (i : Nat) :
    ∀ s : Router, i ∈ l →
      SlotReset
        ((l.foldl (fun (st : Router) (k : Nat) => st.fillSlot { Id := (k : Int) } false)
          s).slots (i : Int)) := by
  induction l with
  | nil => intro s hi; cases hi
  | cons k t ih =>
    intro s hi
    rw [List.foldl_cons]
    rcases List.mem_cons.mp hi with h | h
    · subst h
      apply closeFold_preserves_reset
      rw [fillSlot_slots, if_pos rfl]
      exact applyFill_reset _ _
    · exact ih _ h

lemma closeFold_closed (l : List Nat) :
    ∀ s : Router,
      (l.foldl (fun (st : Router) (k : Nat) => st.fillSlot { Id := (k : Int) } false)
        s).closed = s.closed := by
  induction l with
  | nil => exact fun s => rfl
  | cons k t ih =>
    intro s
    rw [List.foldl_cons, ih, fillSlot_closed]

lemma Close_eq_of_closed (r : Router) (h : r.closed = true) : r.Close = r := by
  unfold Router.Close
  rw [if_pos h]

lemma Close_closed (r : Router) : r.Close.closed = true := by
  unfold Router.Close
  by_cases h : r.closed
  · rw [if_pos h]; exact h
  · rw [if_neg h, closeFold_closed]

lemma close_slot_reset (r : Router) (h : r.closed = false) (i : Nat)
    (hi : i < MaxSlotNum) : SlotReset (r.Close.slots (i : Int)) := by
  unfold Router.Close
  rw [if_neg (by rw [h]; exact Bool.false_ne_true)]
  exact closeFold_reset _ i _ (List.mem_range.mpr hi)

/-! ### Dispatch helpers -/

lemma dispatch_ok_hashKey (s : Router) (r : Request) (k : String)
    (hk : getHashKey r.Multi r.OpStr = .ok k) :
    s.dispatch r = (s.slots ((Hash k % MaxSlotNum : Nat) : Int)).forward r (some k) := by
  unfold Router.dispatch
  rw [hk]

lemma forward_not_ready (s : Slot) (r : Request) (hkey : Option String)
    (h : s.backend.bc = none ∨ s.lock.hold = true) :
    s.forward r hkey = .error ErrSlotIsNotReady := by
  unfold Slot.forward
  by_cases hh : s.lock.hold
  · rw [if_pos hh]
  · rw [if_neg hh]
    rcases h with h | h
    · rw [h]
    · exact absurd h hh

lemma hash_slot_lt (k : String) : Hash k % MaxSlotNum < MaxSlotNum :=
  Nat.mod_lt _ (by decide)

lemma dispatch_not_ready_aux (s : Router) (r : Request) (k : String)
    (hk : getHashKey r.Multi r.OpStr = .ok k)
    (h : (s.slots ((Hash k % MaxSlotNum : Nat) : Int)).backend.bc = none ∨
      (s.slots ((Hash k % MaxSlotNum : Nat) : Int)).lock.hold = true) :
    s.dispatch r = .error ErrSlotIsNotReady := by
  rw [dispatch_ok_hashKey s r k hk]
  exact forward_not_ready _ _ _ h

/-! ### C2: Close empties every slot; subsequent operations fail -/

/-- C2 (amended): after Close on an open router every slot is empty (no
backend, no migrate, no replica groups), every subsequent FillSlot fails with
ClosedRouter leaving the state untouched, and every subsequent dispatch whose
request resolves to a hash key fails — but with SlotIsNotReady, because the
slots are empty: dispatch never consults the closed flag. -/
theorem close_spec (r : Router) (h : r.closed = false) :
    (∀ i : Nat, i < MaxSlotNum →
      (r.Close.slots (i : Int)).backend.bc = none ∧
      (r.Close.slots (i : Int)).migrate.bc = none ∧
      (r.Close.slots (i : Int)).replicaGroups = []) ∧
    (∀ m : MSlot, r.Close.FillSlot m = (some ErrClosedRouter, r.Close)) ∧
    (∀ (req : Request) (k : String), getHashKey req.Multi req.OpStr = .ok k →
      r.Close.dispatch req = .error ErrSlotIsNotReady) := by
  refine ⟨fun i hi => ?_, fun m => ?_, fun req k hk => ?_⟩
  · have hr := close_slot_reset r h i hi
    exact ⟨hr.1, hr.2.1, hr.2.2.1⟩
  · exact FillSlot_of_closed _ m (Close_closed r)
  · exact dispatch_not_ready_aux _ req k hk
      (Or.inl (close_slot_reset r h _ (hash_slot_lt k)).1)

/-- Counterexample to C2 as stated: dispatch on a freshly closed router fails
with SlotIsNotReady, which is not the ClosedRouter error the claim names. -/
theorem close_dispatch_error_cex :
    (NewRouter ⟨1, 1⟩).Close.dispatch { Multi := ["k"], OpStr := "GET", Seed := 0 } =
      .error ErrSlotIsNotReady ∧
    ErrSlotIsNotReady ≠ ErrClosedRouter := by
  constructor
  · exact dispatch_not_ready_aux _ _ "k" rfl
      (Or.inl (close_slot_reset (NewRouter ⟨1, 1⟩) rfl _ (hash_slot_lt "k")).1)
  · decide

theorem close_spec_witness :
    (NewRouter ⟨1, 1⟩).closed = false ∧
    (((NewRouter ⟨1, 1⟩).Close.slots ((0 : Nat) : Int)).backend.bc = none ∧
      ((NewRouter ⟨1, 1⟩).Close.slots ((0 : Nat) : Int)).migrate.bc = none ∧
      ((NewRouter ⟨1, 1⟩).Close.slots ((0 : Nat) : Int)).replicaGroups = []) ∧
    (NewRouter ⟨1, 1⟩).Close.FillSlot { Id := 0 } =
      (some ErrClosedRouter, (NewRouter ⟨1, 1⟩).Close) ∧
    (NewRouter ⟨1, 1⟩).Close.dispatch { Multi := ["k"], OpStr := "GET", Seed := 0 } =
      .error ErrSlotIsNotReady :=
  ⟨rfl,
   (close_spec (NewRouter ⟨1, 1⟩) rfl).1 0 (by decide),
   (close_spec (NewRouter ⟨1, 1⟩) rfl).2.1 { Id := 0 },
   (close_spec (NewRouter ⟨1, 1⟩) rfl).2.2 _ "k" rfl⟩

/-! ### C9: closed is final -/

lemma SwitchMasters_of_closed (r : Router) (f : Int → String)
    (h : r.closed = true) : r.SwitchMasters f = (some ErrClosedRouter, r) := by
  unfold Router.SwitchMasters
  rw [if_pos h]

lemma applyOp_of_closed (r : Router) (h : r.closed = true) (op : Op) :
    applyOp r op = r := by
  cases op with
  | start =>
    show r.Start = r
    unfold Router.Start
    rw [if_pos h]
  | close =>
    show r.Close = r
    exact Close_eq_of_closed r h
  | fill m =>
    show (r.FillSlot m).2 = r
    rw [FillSlot_of_closed r m h]
  | switch f =>
    show (r.SwitchMasters f).2 = r
    rw [SwitchMasters_of_closed r f h]

lemma applyOps_of_closed (r : Router) (h : r.closed = true) (ops : List Op) :
    applyOps r ops = r := by
  induction ops with
  | nil => rfl
  | cons op t ih =>
    unfold applyOps
    rw [List.foldl_cons, applyOp_of_closed r h op]
    exact ih

/-- C9: once closed, the router never becomes online again: Start on a closed
router changes nothing, and after any further sequence of structural
operations the router is still closed and isOnline is false. -/
theorem closed_is_final (r : Router) (h : r.closed = true) :
    r.Start = r ∧
    ∀ ops : List Op,
      (applyOps r ops).closed = true ∧ (applyOps r ops).isOnline = false := by
  refine ⟨?_, fun ops => ?_⟩
  · unfold Router.Start
    rw [if_pos h]
  · rw [applyOps_of_closed r h ops]
    refine ⟨h, ?_⟩
    unfold Router.isOnline
    rw [h]
    simp

theorem closed_is_final_witness :
    ({ NewRouter ⟨1, 1⟩ with closed := true }).closed = true ∧
    ({ NewRouter ⟨1, 1⟩ with closed := true }).Start =
      { NewRouter ⟨1, 1⟩ with closed := true } ∧
    (applyOps { NewRouter ⟨1, 1⟩ with closed := true } [Op.start]).closed = true ∧
    (applyOps { NewRouter ⟨1, 1⟩ with closed := true } [Op.start]).isOnline = false :=
  ⟨rfl, (closed_is_final _ rfl).1,
   ((closed_is_final _ rfl).2 [Op.start]).1,
   ((closed_is_final _ rfl).2 [Op.start]).2⟩

/-! ### trySwitchMaster characterization -/

lemma trySwitchMaster_pos (s : Router) (id : Int) (f : Int → String)
    (h : switchNeeded ((s.slots id).snapshot false) f) :
    s.trySwitchMaster id f =
      s.fillSlot (switchTarget ((s.slots id).snapshot false) f) true := by
  unfold Router.trySwitchMaster switchTarget
  unfold switchNeeded at h
  set m0 := (s.slots id).snapshot false with hm0
  by_cases c1 : f m0.BackendAddrGroupId = ""
  · by_cases c3 : f m0.MigrateFromGroupId = ""
    · simp [c1, c3] at h
    · by_cases c4 : f m0.MigrateFromGroupId = m0.MigrateFrom
      · simp [c1, c3, c4] at h
      · simp [c1, c3, c4]
  · by_cases c2 : f m0.BackendAddrGroupId = m0.BackendAddr
    · by_cases c3 : f m0.MigrateFromGroupId = ""
      · simp [c1, c2, c3] at h
      · by_cases c4 : f m0.MigrateFromGroupId = m0.MigrateFrom
        · simp [c1, c2, c3, c4] at h
        · simp [c1, c2, c3, c4]
    · by_cases c3 : f m0.MigrateFromGroupId = ""
      · simp [c1, c2, c3]
      · by_cases c4 : f m0.MigrateFromGroupId = m0.MigrateFrom
        · simp [c1, c2, c3, c4]
        · simp [c1, c2, c3, c4]

lemma trySwitchMaster_neg (s : Router) (id : Int) (f : Int → String)
    (h : ¬ switchNeeded ((s.slots id).snapshot false) f) :
    s.trySwitchMaster id f = s := by
  unfold Router.trySwitchMaster
  unfold switchNeeded at h
  push_neg at h
  set m0 := (s.slots id).snapshot false with hm0
  by_cases c1 : f m0.BackendAddrGroupId = ""
  · by_cases c3 : f m0.MigrateFromGroupId = ""
    · simp [c1, c3]
    · have c4 := h.2 c3
      simp [c1, c3, c4]
  · have c2 := h.1 c1
    by_cases c3 : f m0.MigrateFromGroupId = ""
    · simp [c1, c2, c3]
    · have c4 := h.2 c3
      simp [c1, c2, c3, c4]

/-! ### Slot well-formedness is preserved by every operation -/

lemma slotInv_applyFill (slot : Slot) (m : MSlot) (sw : Bool) (hwf : wfDesc m) :
    SlotInv (slot.applyFill m sw) := by
  rw [applyFill_eq]
  unfold SlotInv wfDesc at *
  by_cases hB : m.BackendAddr = "" <;> by_cases hM : m.MigrateFrom = ""
  · simp [hB, hM]
  · exact absurd hB (hwf hM)
  · simp [hB, hM]
  · simp [hB, hM]

lemma wfDesc_switchTarget (slot : Slot) (f : Int → String) (hinv : SlotInv slot) :
    wfDesc (switchTarget (slot.snapshot false) f) := by
  obtain ⟨i1, i2, i3, i4, i5⟩ := hinv
  unfold wfDesc switchTarget Slot.snapshot
  simp only [ne_eq]
  intro hM
  by_cases hg : f slot.backend.id = ""
  · cases hbc : slot.backend.bc with
    | some a =>
      simp [hg, hbc]
      exact i2 a hbc
    | none =>
      exfalso
      have hg0 : slot.backend.id = 0 := i1 hbc
      by_cases hmg : f slot.migrate.id = ""
      · cases hmc : slot.migrate.bc with
        | some b => exact (i5 (by rw [hmc]; exact fun hx => Option.noConfusion hx)) hbc
        | none => simp [hmg, hmc] at hM
      · cases hmc : slot.migrate.bc with
        | some b => exact (i5 (by rw [hmc]; exact fun hx => Option.noConfusion hx)) hbc
        | none =>
          have : slot.migrate.id = 0 := i3 hmc
          rw [this] at hmg
          rw [hg0] at hg
          exact hmg hg
  · simp [hg]

lemma RouterInv_fillSlot (s : Router) (m : MSlot) (sw : Bool)
    (h : RouterInv s) (hwf : wfDesc m) : RouterInv (s.fillSlot m sw) := by
  intro j
  rw [fillSlot_slots]
  by_cases hj : j = m.Id
  · rw [if_pos hj]
    exact slotInv_applyFill _ _ _ hwf
  · rw [if_neg hj]
    exact h j

lemma RouterInv_trySwitchMaster (s : Router) (id : Int) (f : Int → String)
    (h : RouterInv s) : RouterInv (s.trySwitchMaster id f) := by
  by_cases hn : switchNeeded ((s.slots id).snapshot false) f
  · rw [trySwitchMaster_pos s id f hn]
    exact RouterInv_fillSlot _ _ _ h (wfDesc_switchTarget _ f (h id))
  · rw [trySwitchMaster_neg s id f hn]
    exact h

lemma RouterInv_switchFold (f : Int → String) (l : List Nat) :
    ∀ s : Router, RouterInv s →
      RouterInv
        (l.foldl (fun (st : Router) (i : Nat) => st.trySwitchMaster (i : Int) f) s) := by
  induction l with
  | nil => exact fun s h => h
  | cons k t ih =>
    intro s h
    rw [List.foldl_cons]
    exact ih _ (RouterInv_trySwitchMaster s _ f h)

lemma wfDesc_empty (k : Int) : wfDesc { Id := k } := by
  unfold wfDesc
  intro h
  exact absurd rfl h

lemma RouterInv_closeFold (l : List Nat) :
    ∀ s : Router, RouterInv s →
      RouterInv
        (l.foldl (fun (st : Router) (k : Nat) => st.fillSlot { Id := (k : Int) } false) s) := by
  induction l with
  | nil => exact fun s h => h
  | cons k t ih =>
    intro s h
    rw [List.foldl_cons]
    exact ih _ (RouterInv_fillSlot s _ false h (wfDesc_empty _))

lemma Start_slots (r : Router) : r.Start.slots = r.slots := by
  unfold Router.Start
  by_cases h : r.closed
  · rw [if_pos h]
  · rw [if_neg h]

lemma RouterInv_Start (r : Router) (h : RouterInv r) : RouterInv r.Start := by
  intro j
  rw [Start_slots]
  exact h j

lemma RouterInv_Close (r : Router) (h : RouterInv r) : RouterInv r.Close := by
  unfold Router.Close
  by_cases hc : r.closed
  · rw [if_pos hc]; exact h
  · rw [if_neg hc]
    exact RouterInv_closeFold _ _ (fun j => h j)

lemma closed_false_of_not (b : Bool) (h : ¬ b = true) : b = false := by
  cases b
  · rfl
  · exact absurd rfl h

lemma RouterInv_FillSlot (r : Router) (m : MSlot) (h : RouterInv r)
    (hwf : wfDesc m) : RouterInv (r.FillSlot m).2 := by
  by_cases hc : r.closed
  · rw [FillSlot_of_closed r m hc]; exact h
  · have hc' := closed_false_of_not _ hc
    by_cases hr : m.Id < 0 ∨ (MaxSlotNum : Int) ≤ m.Id
    · rw [FillSlot_of_invalid r m hc' hr]; exact h
    · push_neg at hr
      rw [FillSlot_of_valid r m hc' hr.1 hr.2]
      exact RouterInv_fillSlot _ _ _ h hwf

lemma RouterInv_SwitchMasters (r : Router) (f : Int → String) (h : RouterInv r) :
    RouterInv (r.SwitchMasters f).2 := by
  unfold Router.SwitchMasters
  by_cases hc : r.closed
  · rw [if_pos hc]; exact h
  · rw [if_neg hc]
    exact RouterInv_switchFold f _ _ h

lemma RouterInv_applyOp (r : Router) (op : Op) (h : RouterInv r)
    (hwf : ∀ m, op = Op.fill m → wfDesc m) : RouterInv (applyOp r op) := by
  cases op with
  | start => exact RouterInv_Start r h
  | close => exact RouterInv_Close r h
  | fill m => exact RouterInv_FillSlot r m h (hwf m rfl)
  | switch f => exact RouterInv_SwitchMasters r f h

lemma RouterInv_applyOps (ops : List Op) :
    ∀ r : Router, RouterInv r → (∀ m, Op.fill m ∈ ops → wfDesc m) →
      RouterInv (applyOps r ops) := by
  induction ops with
  | nil => exact fun r h _ => h
  | cons op t ih =>
    intro r h hwf
    unfold applyOps
    rw [List.foldl_cons]
    exact ih _
      (RouterInv_applyOp r op h (fun m hm => hwf m (by rw [hm]; exact List.mem_cons_self _ _)))
      (fun m hm => hwf m (List.mem_cons_of_mem _ hm))

lemma RouterInv_new (cfg : Config) : RouterInv (NewRouter cfg) :=
  fun _ =>
    ⟨fun _ => rfl, fun a h => Option.noConfusion h, fun _ => rfl,
     fun a h => Option.noConfusion h, fun hne => absurd rfl hne⟩

/-! ### C3: migrate implies backend -/

/-- C3 (amended): in every router state reachable from a fresh router by
Start, FillSlot, SwitchMasters and Close, provided every FillSlot descriptor
that names a migration source also names a backend address, a slot with a
non-nil migrate connection has a non-nil backend connection.  The code
itself never validates this on descriptors, so the unrestricted claim fails
(see the counterexample). -/
theorem migrate_requires_backend (cfg : Config) (ops : List Op)
    (hwf : ∀ m, Op.fill m ∈ ops → wfDesc m) (i : Int)
    (hmig : ((applyOps (NewRouter cfg) ops).slots i).migrate.bc ≠ none) :
    ((applyOps (NewRouter cfg) ops).slots i).backend.bc ≠ none :=
  (RouterInv_applyOps ops (NewRouter cfg) (RouterInv_new cfg) hwf i).2.2.2.2 hmig

/-- Counterexample to C3 as stated: FillSlot accepts a descriptor with a
migration source but no backend address, producing a reachable state whose
slot 0 has a migrate connection and no backend connection. -/
theorem migrate_requires_backend_cex :
    ((applyOps (NewRouter ⟨1, 1⟩)
        [Op.fill { Id := 0, MigrateFrom := "a", MigrateFromGroupId := 7 }]).slots 0).migrate.bc =
      some "a" ∧
    ((applyOps (NewRouter ⟨1, 1⟩)
        [Op.fill { Id := 0, MigrateFrom := "a", MigrateFromGroupId := 7 }]).slots 0).backend.bc =
      none :=
  ⟨rfl, rfl⟩

def c3m : MSlot :=
  { Id := 0, BackendAddr := "b", BackendAddrGroupId := 1,
    MigrateFrom := "a", MigrateFromGroupId := 2 }

theorem migrate_requires_backend_witness :
    (∀ m : MSlot, Op.fill m ∈ [Op.fill c3m] → wfDesc m) ∧
    ((applyOps (NewRouter ⟨1, 1⟩) [Op.fill c3m]).slots 0).migrate.bc ≠ none ∧
    ((applyOps (NewRouter ⟨1, 1⟩) [Op.fill c3m]).slots 0).backend.bc ≠ none := by
  have hwf : ∀ m : MSlot, Op.fill m ∈ [Op.fill c3m] → wfDesc m := by
    intro m hm
    have h := List.mem_singleton.mp hm
    injection h with h2
    rw [h2]
    unfold wfDesc
    decide
  have hmig : ((applyOps (NewRouter ⟨1, 1⟩) [Op.fill c3m]).slots 0).migrate.bc ≠ none := by
    intro hx
    exact Option.noConfusion hx
  exact ⟨hwf, hmig, migrate_requires_backend ⟨1, 1⟩ [Op.fill c3m] hwf 0 hmig⟩

/-! ### C4: SwitchMasters is idempotent -/

/-- Index coherence: the slot stored at index j carries id j, as NewRouter
establishes and fillSlot preserves. -/
def IdCoh (r : Router) : Prop :=
  ∀ j : Int, (r.slots j).id = j

/-- The group-id / address discipline of a slot: a missing connection has
group id 0 and a present connection has a nonempty address.  Unlike the full
SlotInv, this holds in every reachable state with no proviso on descriptors:
fillSlot re-establishes it for the slot it fills no matter what the
descriptor contains. -/
def GroupAddrInv (s : Slot) : Prop :=
  (s.backend.bc = none → s.backend.id = 0) ∧
  (∀ a, s.backend.bc = some a → a ≠ "") ∧
  (s.migrate.bc = none → s.migrate.id = 0) ∧
  (∀ a, s.migrate.bc = some a → a ≠ "")

/-- The structural facts every reachable router satisfies unconditionally. -/
def RouterWf (r : Router) : Prop :=
  IdCoh r ∧ ∀ j : Int, GroupAddrInv (r.slots j)

lemma groupAddrInv_applyFill (slot : Slot) (m : MSlot) (sw : Bool) :
    GroupAddrInv (slot.applyFill m sw) := by
  rw [applyFill_eq]
  unfold GroupAddrInv
  by_cases hB : m.BackendAddr = "" <;> by_cases hM : m.MigrateFrom = "" <;>
    simp [hB, hM]

lemma applyFill_id (slot : Slot) (m : MSlot) (sw : Bool) :
    (slot.applyFill m sw).id = slot.id := by
  rw [applyFill_eq]

lemma IdCoh_fillSlot (s : Router) (m : MSlot) (sw : Bool) (h : IdCoh s) :
    IdCoh (s.fillSlot m sw) := by
  intro j
  rw [fillSlot_slots]
  by_cases hj : j = m.Id
  · rw [if_pos hj, applyFill_id, h m.Id]
    exact hj.symm
  · rw [if_neg hj]
    exact h j

/-- A slot just refilled by trySwitchMaster is a fixed point of the same
mapping: re-examining it can demand no further switch. -/
lemma switchStable_after (slot : Slot) (f : Int → String) (hinv : GroupAddrInv slot) :
    ¬ switchNeeded
      ((slot.applyFill (switchTarget (slot.snapshot false) f) true).snapshot false) f := by
  obtain ⟨i1, i2, i3, i4⟩ := hinv
  rw [snapshot_applyFill]
  unfold switchNeeded switchTarget Slot.snapshot
  simp only [ne_eq]
  rintro (⟨h1, h2⟩ | ⟨h3, h4⟩)
  · by_cases hg : f slot.backend.id = ""
    · by_cases ha : slot.backend.bc.getD "" = ""
      · simp [hg, ha] at h1
        cases hbc : slot.backend.bc with
        | some a =>
          rw [hbc] at ha
          exact i2 a hbc (by simpa using ha)
        | none =>
          have h0 : slot.backend.id = 0 := i1 hbc
          rw [h0] at hg
          exact h1 hg
      · simp [hg, ha] at h1 h2
    · simp [hg] at h1 h2
  · by_cases hmg : f slot.migrate.id = ""
    · by_cases hm : slot.migrate.bc.getD "" = ""
      · simp [hmg, hm] at h3
        cases hmc : slot.migrate.bc with
        | some a =>
          rw [hmc] at hm
          exact i4 a hmc (by simpa using hm)
        | none =>
          have h0 : slot.migrate.id = 0 := i3 hmc
          rw [h0] at hmg
          exact h3 hmg
      · simp [hmg, hm] at h3 h4
    · simp [hmg] at h3 h4

lemma trySwitchMaster_step (s : Router) (k : Int) (f : Int → String)
    (hid : IdCoh s)
    (hdis : ∀ j : Int, GroupAddrInv (s.slots j) ∨
      ¬ switchNeeded ((s.slots j).snapshot false) f) :
    IdCoh (s.trySwitchMaster k f) ∧
    (∀ j : Int, GroupAddrInv ((s.trySwitchMaster k f).slots j) ∨
      ¬ switchNeeded (((s.trySwitchMaster k f).slots j).snapshot false) f) ∧
    (∀ j : Int, j ≠ k → (s.trySwitchMaster k f).slots j = s.slots j) ∧
    ¬ switchNeeded (((s.trySwitchMaster k f).slots k).snapshot false) f := by
  by_cases hn : switchNeeded ((s.slots k).snapshot false) f
  · have hinvk : GroupAddrInv (s.slots k) := (hdis k).resolve_right (fun hx => hx hn)
    rw [trySwitchMaster_pos s k f hn]
    have hmid : (switchTarget ((s.slots k).snapshot false) f).Id = k := hid k
    have hstable :
        ¬ switchNeeded
          (((s.fillSlot (switchTarget ((s.slots k).snapshot false) f) true).slots k).snapshot
            false) f := by
      rw [fillSlot_slots, hmid, if_pos rfl]
      exact switchStable_after (s.slots k) f hinvk
    refine ⟨IdCoh_fillSlot _ _ _ hid, ?_, ?_, hstable⟩
    · intro j
      by_cases hj : j = k
      · rw [hj]
        exact Or.inr hstable
      · rw [fillSlot_slots, hmid, if_neg hj]
        exact hdis j
    · intro j hj
      rw [fillSlot_slots, hmid, if_neg hj]
  · rw [trySwitchMaster_neg s k f hn]
    exact ⟨hid, hdis, fun j _ => rfl, hn⟩

def switchFold (f : Int → String) (l : List Nat) (s : Router) : Router :=
  l.foldl (fun (st : Router) (i : Nat) => st.trySwitchMaster (i : Int) f) s

lemma SwitchMasters_eq (s : Router) (f : Int → String) (h : s.closed = false) :
    s.SwitchMasters f = (none, switchFold f (List.range MaxSlotNum) s) := by
  unfold Router.SwitchMasters switchFold
  rw [if_neg (by rw [h]; exact Bool.false_ne_true)]

lemma switchFold_cons (f : Int → String) (k : Nat) (t : List Nat) (s : Router) :
    switchFold f (k :: t) s = switchFold f t (s.trySwitchMaster (k : Int) f) := rfl

lemma trySwitchMaster_closed (s : Router) (k : Int) (f : Int → String) :
    (s.trySwitchMaster k f).closed = s.closed := by
  by_cases hn : switchNeeded ((s.slots k).snapshot false) f
  · rw [trySwitchMaster_pos s k f hn, fillSlot_closed]
  · rw [trySwitchMaster_neg s k f hn]

lemma switchFold_closed (f : Int → String) (l : List Nat) :
    ∀ s : Router, (switchFold f l s).closed = s.closed := by
  induction l with
  | nil => exact fun s => rfl
  | cons k t ih =>
    intro s
    rw [switchFold_cons, ih, trySwitchMaster_closed]

lemma switchFold_props (f : Int → String) (l : List Nat) :
    ∀ s : Router, IdCoh s →
      (∀ j : Int, GroupAddrInv (s.slots j) ∨
        ¬ switchNeeded ((s.slots j).snapshot false) f) →
      IdCoh (switchFold f l s) ∧
      (∀ j : Int, GroupAddrInv ((switchFold f l s).slots j) ∨
        ¬ switchNeeded (((switchFold f l s).slots j).snapshot false) f) ∧
      (∀ j : Int, ¬ switchNeeded ((s.slots j).snapshot false) f →
        ¬ switchNeeded (((switchFold f l s).slots j).snapshot false) f) ∧
      (∀ i ∈ l, ¬ switchNeeded (((switchFold f l s).slots (i : Int)).snapshot false) f) := by
  induction l with
  | nil =>
    intro s hid hdis
    exact ⟨hid, hdis, fun j h => h, fun i hi => absurd hi (List.not_mem_nil i)⟩
  | cons k t ih =>
    intro s hid hdis
    have S := trySwitchMaster_step s (k : Int) f hid hdis
    have IH := ih (s.trySwitchMaster (k : Int) f) S.1 S.2.1
    rw [switchFold_cons]
    have mono : ∀ j : Int, ¬ switchNeeded ((s.slots j).snapshot false) f →
        ¬ switchNeeded (((switchFold f t (s.trySwitchMaster (k : Int) f)).slots j).snapshot
          false) f := by
      intro j hj
      apply IH.2.2.1 j
      by_cases hjk : j = (k : Int)
      · rw [hjk]
        exact S.2.2.2
      · rw [S.2.2.1 j hjk]
        exact hj
    refine ⟨IH.1, IH.2.1, mono, ?_⟩
    intro i hi
    rcases List.mem_cons.mp hi with h | h
    · subst h
      exact IH.2.2.1 _ S.2.2.2
    · exact IH.2.2.2 i h

lemma switchFold_fix (f : Int → String) (l : List Nat) :
    ∀ s : Router,
      (∀ i ∈ l, ¬ switchNeeded ((s.slots (i : Int)).snapshot false) f) →
      switchFold f l s = s := by
  induction l with
  | nil => exact fun s _ => rfl
  | cons k t ih =>
    intro s h
    rw [switchFold_cons, trySwitchMaster_neg s _ f (h k (List.mem_cons_self _ _))]
    exact ih s (fun i hi => h i (List.mem_cons_of_mem _ hi))

/-! RouterWf is established by NewRouter and preserved unconditionally by
every structural operation — no proviso on descriptors is needed, unlike the
migrate-implies-backend invariant of C3. -/

lemma RouterWf_fillSlot (s : Router) (m : MSlot) (sw : Bool) (h : RouterWf s) :
    RouterWf (s.fillSlot m sw) := by
  refine ⟨IdCoh_fillSlot s m sw h.1, ?_⟩
  intro j
  rw [fillSlot_slots]
  by_cases hj : j = m.Id
  · rw [if_pos hj]
    exact groupAddrInv_applyFill _ _ _
  · rw [if_neg hj]
    exact h.2 j

lemma RouterWf_Start (r : Router) (h : RouterWf r) : RouterWf r.Start := by
  constructor
  · intro j
    rw [Start_slots]
    exact h.1 j
  · intro j
    rw [Start_slots]
    exact h.2 j

lemma RouterWf_closeFold (l : List Nat) :
    ∀ s : Router, RouterWf s →
      RouterWf
        (l.foldl (fun (st : Router) (k : Nat) => st.fillSlot { Id := (k : Int) } false) s) := by
  induction l with
  | nil => exact fun s h => h
  | cons k t ih =>
    intro s h
    rw [List.foldl_cons]
    exact ih _ (RouterWf_fillSlot s _ false h)

lemma RouterWf_Close (r : Router) (h : RouterWf r) : RouterWf r.Close := by
  unfold Router.Close
  by_cases hc : r.closed
  · rw [if_pos hc]
    exact h
  · rw [if_neg hc]
    exact RouterWf_closeFold _ _ ⟨h.1, h.2⟩

lemma RouterWf_FillSlot (r : Router) (m : MSlot) (h : RouterWf r) :
    RouterWf (r.FillSlot m).2 := by
  by_cases hc : r.closed
  · rw [FillSlot_of_closed r m hc]
    exact h
  · have hc' := closed_false_of_not _ hc
    by_cases hr : m.Id < 0 ∨ (MaxSlotNum : Int) ≤ m.Id
    · rw [FillSlot_of_invalid r m hc' hr]
      exact h
    · push_neg at hr
      rw [FillSlot_of_valid r m hc' hr.1 hr.2]
      exact RouterWf_fillSlot _ _ _ h

lemma RouterWf_trySwitchMaster (s : Router) (k : Int) (f : Int → String)
    (h : RouterWf s) : RouterWf (s.trySwitchMaster k f) := by
  by_cases hn : switchNeeded ((s.slots k).snapshot false) f
  · rw [trySwitchMaster_pos s k f hn]
    exact RouterWf_fillSlot _ _ _ h
  · rw [trySwitchMaster_neg s k f hn]
    exact h

lemma RouterWf_switchFold (f : Int → String) (l : List Nat) :
    ∀ s : Router, RouterWf s → RouterWf (switchFold f l s) := by
  induction l with
  | nil => exact fun s h => h
  | cons k t ih =>
    intro s h
    rw [switchFold_cons]
    exact ih _ (RouterWf_trySwitchMaster s _ f h)

lemma RouterWf_SwitchMasters (r : Router) (f : Int → String) (h : RouterWf r) :
    RouterWf (r.SwitchMasters f).2 := by
  by_cases hc : r.closed
  · rw [SwitchMasters_of_closed r f hc]
    exact h
  · rw [SwitchMasters_eq r f (closed_false_of_not _ hc)]
    exact RouterWf_switchFold f _ r h

lemma RouterWf_applyOp (r : Router) (op : Op) (h : RouterWf r) :
    RouterWf (applyOp r op) := by
  cases op with
  | start => exact RouterWf_Start r h
  | close => exact RouterWf_Close r h
  | fill m => exact RouterWf_FillSlot r m h
  | switch f => exact RouterWf_SwitchMasters r f h

lemma RouterWf_applyOps (ops : List Op) :
    ∀ r : Router, RouterWf r → RouterWf (applyOps r ops) := by
  induction ops with
  | nil => exact fun r h => h
  | cons op t ih =>
    intro r h
    unfold applyOps
    rw [List.foldl_cons]
    exact ih _ (RouterWf_applyOp r op h)

lemma RouterWf_new (cfg : Config) : RouterWf (NewRouter cfg) :=
  ⟨fun _ => rfl,
   fun _ =>
     ⟨fun _ => rfl, fun a h => Option.noConfusion h, fun _ => rfl,
      fun a h => Option.noConfusion h⟩⟩

lemma switchMasters_idem_of_wf (r : Router) (f : Int → String) (h : RouterWf r) :
    (r.SwitchMasters f).2.SwitchMasters f = r.SwitchMasters f := by
  by_cases hc : r.closed
  · rw [SwitchMasters_of_closed r f hc]
    exact SwitchMasters_of_closed r f hc
  · have hc' := closed_false_of_not _ hc
    rw [SwitchMasters_eq r f hc']
    have props := switchFold_props f (List.range MaxSlotNum) r h.1 (fun j => Or.inl (h.2 j))
    have hcl2 : (switchFold f (List.range MaxSlotNum) r).closed = false := by
      rw [switchFold_closed, hc']
    show (switchFold f (List.range MaxSlotNum) r).SwitchMasters f =
      (none, switchFold f (List.range MaxSlotNum) r)
    rw [SwitchMasters_eq _ f hcl2,
      switchFold_fix f (List.range MaxSlotNum) _ (props.2.2.2)]

/-- C4: for every mapping and every router state reachable by any sequence of
structural operations from a fresh router, calling SwitchMasters twice in
succession with the identical mapping is idempotent: the second call returns
exactly the first call's result — in particular the pools with their retain /
release counters are untouched, so no connection is retained or released and
no slot is refilled — and HasSwitched is unchanged by the second call. -/
theorem switchMasters_idempotent (cfg : Config) (ops : List Op) (f : Int → String) :
    ((applyOps (NewRouter cfg) ops).SwitchMasters f).2.SwitchMasters f =
      (applyOps (NewRouter cfg) ops).SwitchMasters f ∧
    (((applyOps (NewRouter cfg) ops).SwitchMasters f).2.SwitchMasters f).2.HasSwitched =
      ((applyOps (NewRouter cfg) ops).SwitchMasters f).2.HasSwitched := by
  have main := switchMasters_idem_of_wf (applyOps (NewRouter cfg) ops) f
    (RouterWf_applyOps ops (NewRouter cfg) (RouterWf_new cfg))
  exact ⟨main, by rw [main]⟩

/-! ### C5: cross-shard requests -/

lemma all_same_slot {k k2 : String} {ks : List String}
    (hall : (ks.all fun x => Hash x % MaxSlotNum == Hash k % MaxSlotNum) = true)
    (h : k2 ∈ k :: ks) : Hash k2 % MaxSlotNum = Hash k % MaxSlotNum := by
  rcases List.mem_cons.mp h with h | h
  · rw [h]
  · exact beq_iff_eq.mp (List.all_eq_true.mp hall k2 h)

/-- C5: a multi-key request whose routing keys hash to more than one distinct
slot is rejected with the cross-shard error; a request whose keys all hash to
the same slot is handed to Slot.forward exactly once, on that single slot. -/
theorem dispatch_cross_slot (r : Router) (req : Request) :
    (∀ k1 k2, k1 ∈ req.Multi → k2 ∈ req.Multi →
      Hash k1 % MaxSlotNum ≠ Hash k2 % MaxSlotNum →
      r.dispatch req = .error ErrCrossSlot) ∧
    (∀ k ks, req.Multi = k :: ks →
      (∀ k2 ∈ req.Multi, Hash k2 % MaxSlotNum = Hash k % MaxSlotNum) →
      r.dispatch req =
        (r.slots ((Hash k % MaxSlotNum : Nat) : Int)).forward req (some k)) := by
  constructor
  · intro k1 k2 h1 h2 hne
    unfold Router.dispatch
    cases hM : req.Multi with
    | nil =>
      rw [hM] at h1
      exact absurd h1 (List.not_mem_nil k1)
    | cons k ks =>
      rw [hM] at h1 h2
      unfold getHashKey
      by_cases hall : (ks.all fun x => Hash x % MaxSlotNum == Hash k % MaxSlotNum) = true
      · exact absurd ((all_same_slot hall h1).trans (all_same_slot hall h2).symm) hne
      · simp [hall]
  · intro k ks hM hall
    unfold Router.dispatch getHashKey
    rw [hM]
    have ht : (ks.all fun x => Hash x % MaxSlotNum == Hash k % MaxSlotNum) = true := by
      apply List.all_eq_true.mpr
      intro x hx
      exact beq_iff_eq.mpr (hall x (by rw [hM]; exact List.mem_cons_of_mem _ hx))
    simp [ht]

theorem dispatch_cross_slot_witness :
    ("a" ∈ ["a", "b"] ∧ "b" ∈ ["a", "b"] ∧
      Hash "a" % MaxSlotNum ≠ Hash "b" % MaxSlotNum ∧
      (NewRouter ⟨1, 1⟩).dispatch { Multi := ["a", "b"], OpStr := "MGET", Seed := 0 } =
        .error ErrCrossSlot) ∧
    ((∀ k2 ∈ ["a", "a"], Hash k2 % MaxSlotNum = Hash "a" % MaxSlotNum) ∧
      (NewRouter ⟨1, 1⟩).dispatch { Multi := ["a", "a"], OpStr := "MGET", Seed := 0 } =
        ((NewRouter ⟨1, 1⟩).slots ((Hash "a" % MaxSlotNum : Nat) : Int)).forward
          { Multi := ["a", "a"], OpStr := "MGET", Seed := 0 } (some "a")) :=
  ⟨⟨by decide, by decide, by decide,
    (dispatch_cross_slot (NewRouter ⟨1, 1⟩)
        { Multi := ["a", "b"], OpStr := "MGET", Seed := 0 }).1 "a" "b"
      (by decide) (by decide) (by decide)⟩,
   ⟨by decide,
    (dispatch_cross_slot (NewRouter ⟨1, 1⟩)
        { Multi := ["a", "a"], OpStr := "MGET", Seed := 0 }).2 "a" ["a"] rfl (by decide)⟩⟩

/-! ### C7: dispatch to a backend-less or gated slot -/

/-- C7: a request whose resolved hash key lands on a slot with no backend
connection assigned — and likewise when the slot's gate is held — is rejected
with SlotIsNotReady; in the Except-valued model an error return means the
request was pushed onto no connection, so it is neither silently dropped nor
mis-routed. -/
theorem dispatch_slot_not_ready (r : Router) (req : Request) (k : String)
    (hk : getHashKey req.Multi req.OpStr = .ok k)
    (h : (r.slots ((Hash k % MaxSlotNum : Nat) : Int)).backend.bc = none ∨
      (r.slots ((Hash k % MaxSlotNum : Nat) : Int)).lock.hold = true) :
    r.dispatch req = .error ErrSlotIsNotReady :=
  dispatch_not_ready_aux r req k hk h

theorem dispatch_slot_not_ready_witness :
    getHashKey (["x"] : List String) "GET" = .ok "x" ∧
    ((NewRouter ⟨1, 1⟩).slots ((Hash "x" % MaxSlotNum : Nat) : Int)).backend.bc = none ∧
    (NewRouter ⟨1, 1⟩).dispatch { Multi := ["x"], OpStr := "GET", Seed := 0 } =
      .error ErrSlotIsNotReady :=
  ⟨rfl, rfl,
   dispatch_slot_not_ready (NewRouter ⟨1, 1⟩) { Multi := ["x"], OpStr := "GET", Seed := 0 }
     "x" rfl (Or.inl rfl)⟩

end Codis
